import Mathlib

/-!
Verification development for the latebot leave-tracking service
(Go sources: `services/openai.go`, `models/leave.go`, repository layer).

Shallow embedding conventions:
* Instants are minutes since the epoch, expressed in the single fixed
  Asia/Kolkata civil timezone (IST has a fixed offset and no DST, so
  `AddDate(0,0,30)` on a midnight value is exactly `+30` civil days and
  `time.Date(y,m,d,0,0,0,0,loc)` truncation is flooring to a multiple of
  1440 minutes).  Go compares the truncated midnight values with
  `Before`/`After`; comparing day indices `t / 1440` is equivalent.
* The Go zero `time.Time` (the value a missing JSON field decodes to) is
  modelled as instant 0; every realistic current instant is strictly
  later, which preserves the "far in the past" behaviour.
* The OpenAI chat completion itself is an external oracle; its reply
  content is the input of the parsing/validation pipeline modelled here.
  Network failure of the call is a separate environment outcome.
* `fmt.Errorf("JSON parse error: %v\nResponse: %s", ...)` carries driver
  detail; it is modelled by the fixed message `jsonErrMsg` (the claims
  only distinguish hard parse failure from a returned candidate).
-/

/-! ## Clock / timezone normalizer (openai.go: `time.Date` truncation) -/

/-- Civil day index of an instant (minutes since epoch, IST wall clock):
`time.Date(Year,Month,Day,0,0,0,0,loc)` truncation, represented by the
day number. -/
def civilDay (t : Nat) : Nat := t / 1440

/-- Midnight instant of a civil day index. -/
def dayStart (d : Nat) : Nat := d * 1440

/-- Civil calendar date `(year, month, day)` from a day index
(day 0 = 1970-01-01), the standard era-based algorithm; used to model
Go's `Format("January 2, 2006")`. -/
def civilFromDays (z : Nat) : Nat × Nat × Nat :=
  let z' := z + 719468
  let era := z' / 146097
  let doe := z' % 146097
  let yoe := (doe - doe / 1460 + doe / 36524 - doe / 146096) / 365
  let y := yoe + era * 400
  let doy := doe - (365 * yoe + yoe / 4 - yoe / 100)
  let mp := (5 * doy + 2) / 153
  let d := doy - (153 * mp + 2) / 5 + 1
  let m := if mp < 10 then mp + 3 else mp - 9
  (if m ≤ 2 then y + 1 else y, m, d)

/-- Day index from a civil calendar date (inverse of `civilFromDays` for
dates at or after 1970-01-01). -/
def daysFromCivil (y m d : Nat) : Nat :=
  let y' := if m ≤ 2 then y - 1 else y
  let era := y' / 400
  let yoe := y' % 400
  let doy := (153 * (if 2 < m then m - 3 else m + 9) + 2) / 5 + d - 1
  let doe := yoe * 365 + yoe / 4 - yoe / 100 + doy
  era * 146097 + doe - 719468

/-- Go `time.Month.String()` names, 1-indexed. -/
def monthName : Nat → String
  | 1 => "January" | 2 => "February" | 3 => "March" | 4 => "April"
  | 5 => "May" | 6 => "June" | 7 => "July" | 8 => "August"
  | 9 => "September" | 10 => "October" | 11 => "November" | 12 => "December"
  | _ => ""

/-- Go `t.Format("January 2, 2006")` applied to the midnight value of a
civil day index. -/
def formatGoDate (day : Nat) : String :=
  let c := civilFromDays day
  monthName c.2.1 ++ " " ++ toString c.2.2 ++ ", " ++ toString c.1

/-- Decimal value of a digit run, `none` on a non-digit. -/
def digitsVal? : List Char → Nat → Option Nat
  | [], acc => some acc
  | c :: cs, acc =>
    if c.isDigit then digitsVal? cs (acc * 10 + (c.toNat - 48)) else none

/-- Numeric value of a non-empty digit field. -/
def fieldNat? (cs : List Char) : Option Nat :=
  if cs = [] then none else digitsVal? cs 0

/-- Split a character list on a separator. -/
def splitOnChar (sep : Char) : List Char → List (List Char)
  | [] => [[]]
  | c :: cs =>
    match splitOnChar sep cs with
    | [] => if c = sep then [[], []] else [[c]]
    | g :: gs => if c = sep then [] :: g :: gs else (c :: g) :: gs

/-- Model of `time.Parse("2006-01-02", s)` (leave.go lines 786, 792),
returning the parsed civil day index on a well-formed `YYYY-MM-DD`. -/
def parseDate (s : String) : Option Nat :=
  match (splitOnChar '-' s.data).map fieldNat? with
  | [some y, some m, some d] =>
    if 1 ≤ m ∧ m ≤ 12 ∧ 1 ≤ d ∧ d ≤ 31 ∧ 1970 ≤ y then
      some (daysFromCivil y m d)
    else none
  | _ => none

/-! ## Interpretation gateway: `LeaveResponse` and defensive parsing
(openai.go lines 335-343 and 491-619, final revision) -/

/-- `services.LeaveResponse`: the structured reply of the interpretation
service after `json.Unmarshal` (zero values filled for absent fields). -/
structure LeaveResponse where
  isValid : Bool
  startTime : Nat
  endTime : Nat
  duration : String
  reason : String
  leaveType : String
  error : String
  deriving Repr, DecidableEq

/-- The reply content handed to `json.Unmarshal`: either not valid JSON
for the schema, or an object in which each schema field is present or
absent.  Absent fields decode to Go zero values. -/
inductive RawContent where
  | malformed
  | obj (isValid : Option Bool) (startTime : Option Nat) (endTime : Option Nat)
      (duration : Option String) (reason : Option String)
      (leaveType : Option String) (error : Option String)
  deriving Repr, DecidableEq

/-- Message of the `json.Unmarshal` failure path (openai.go line 574). -/
def jsonErrMsg : String := "JSON parse error"

/-- Message of the required-field check (openai.go line 583). -/
def ltReqMsg : String := "leave_type is required for valid requests"

/-- Rejection message for past start dates (openai.go line 598). -/
def pastMsg : String := "Cannot request leave for past dates"

/-- Rejection message for start dates beyond the 30-day window, carrying
the computed maximum date formatted `"January 2, 2006"`
(openai.go lines 604-605). -/
def tooFarMsg (maxDate : Nat) : String :=
  "Cannot request leave more than 30 days in advance (maximum allowed date is "
    ++ formatGoDate maxDate ++ ")"

/-- Rejection message for end before start (openai.go line 611). -/
def endBeforeStartMsg : String := "End time must be after start time"

/-- `json.Unmarshal` of the reply content into `LeaveResponse`
(openai.go lines 571-575): malformed content is an error, absent fields
decode to zero values (`false`, zero time, `""`). -/
def unmarshalLeave : RawContent → Except String LeaveResponse
  | .malformed => .error jsonErrMsg
  | .obj iv st et du re lt er =>
    .ok ⟨iv.getD false, st.getD 0, et.getD 0, du.getD "", re.getD "",
         lt.getD "", er.getD ""⟩

/-- The validation tail of `ParseLeaveRequest` (openai.go lines 577-618):
short-circuit on `is_valid=false`, require `leave_type`, then the
past-date / 30-day-window / end-before-start checks on civil dates in
IST.  `startDate.Before(todayDate)` is day-index `<`,
`startDate.After(maxDate)` is day-index `>`, and
`endTimeIST.Before(startTimeIST)` is instant `<`.  The trailing
`.In(loc)` conversions do not change instants in a single-zone model. -/
def validateLeave (resp : LeaveResponse) (now : Nat) : Except String LeaveResponse :=
  if resp.isValid = false then .ok resp
  else if resp.leaveType = "" then .error ltReqMsg
  else
    let startDate := civilDay resp.startTime
    let todayDate := civilDay now
    let maxDate := todayDate + 30
    if startDate < todayDate then
      .ok { resp with isValid := false, error := pastMsg }
    else if maxDate < startDate then
      .ok { resp with isValid := false, error := tooFarMsg maxDate }
    else if resp.endTime < resp.startTime then
      .ok { resp with isValid := false, error := endBeforeStartMsg }
    else .ok resp

/-- `OpenAIService.ParseLeaveRequest` after the chat completion returned
reply content (openai.go lines 568-619): trim/unmarshal, then validate. -/
def parseLeaveRequest (content : RawContent) (now : Nat) : Except String LeaveResponse :=
  match unmarshalLeave content with
  | .error e => .error e
  | .ok r => validateLeave r now

/-! ## Durable record and message handler (models/leave.go lines 5-16,
leave.go lines 446-586, final revision) -/

/-- `models.Leave`: the durable leave record built by `handleMessage`
before `leaveRepo.Create` (identity/created/updated stamps are assigned
by storage and not modelled). -/
structure Leave where
  username : String
  originalText : String
  startTime : Nat
  endTime : Nat
  duration : String
  reason : String
  leaveType : String
  deriving Repr, DecidableEq

/-- Inbound Slack message event fields read by `handleMessage`. -/
structure MsgEvent where
  timestamp : String
  text : String
  user : String
  channel : String
  subType : String
  botId : String
  deriving Repr, DecidableEq

/-- Environment outcomes of the external calls `handleMessage` makes:
`AuthTest`, `GetUserInfo`, the OpenAI chat completion
(`none` = API error), and `leaveRepo.Create`. -/
structure HandlerEnv where
  authOk : Bool
  selfId : String
  userInfoOk : Bool
  username : String
  content : Option RawContent
  createOk : Bool
  deriving Repr, DecidableEq

/-- `getStatusMessage` (leave.go lines 571-586). -/
def getStatusMessage (leaveType : String) : String :=
  if leaveType = "WFH" then "🏠 Working remotely"
  else if leaveType = "FULL_DAY" then "🌴 Out of office"
  else if leaveType = "HALF_DAY" then "🌓 Partially available"
  else if leaveType = "LATE_ARRIVAL" then "⏰ Arriving late"
  else if leaveType = "EARLY_DEPARTURE" then "🏃 Leaving early"
  else "✅ Recorded"

/-- Emoji of the confirmation switch (leave.go lines 529-549). -/
def leaveEmoji (leaveType : String) : String :=
  if leaveType = "WFH" then "🏠"
  else if leaveType = "FULL_DAY" then "🌴"
  else if leaveType = "HALF_DAY" then "🌓"
  else if leaveType = "LATE_ARRIVAL" then "⏰"
  else if leaveType = "EARLY_DEPARTURE" then "🏃"
  else "✅"

/-- Message-type label of the confirmation switch (leave.go 529-549). -/
def leaveMessageType (leaveType : String) : String :=
  if leaveType = "WFH" then "WFH"
  else if leaveType = "FULL_DAY" then "full day leave"
  else if leaveType = "HALF_DAY" then "half day leave"
  else if leaveType = "LATE_ARRIVAL" then "late arrival"
  else if leaveType = "EARLY_DEPARTURE" then "early departure"
  else "request"

/-- Messages posted to the channel by `handleMessage`.  The validation
failure text is kept verbatim; the confirmation is kept structurally
(emoji, type label, the recorded leave, status line) - its sprintf
date rendering is presentation only. -/
inductive PostedMsg where
  | validationError (text : String)
  | confirmation (emoji msgType : String) (leave : Leave) (status : String)
  deriving Repr, DecidableEq

/-- Result of one `handleMessage` invocation: the updated
`processedMsgs` key set, whether `ParseLeaveRequest` was invoked,
the row handed to `Create` when the write succeeded, and the posted
messages. -/
structure HandlerOutcome where
  seen : List String
  parsed : Bool
  persisted : Option Leave
  posted : List PostedMsg
  deriving Repr, DecidableEq

/-- `App.handleMessage` (leave.go lines 466-569): duplicate check on
`processedMsgs[ev.Timestamp]`, mark as processed, skip bot/system/own
messages, fetch user info, parse, reject invalid results (posting the
carried error), persist and confirm.  Each external call's outcome is
drawn from `env`; one invocation is modelled as a whole (the
cross-invocation interleaving of the map accesses is modelled
separately by `RaceStep`). -/
def handleMessage (seen : List String) (ev : MsgEvent) (env : HandlerEnv)
    (now : Nat) : HandlerOutcome :=
  if seen.contains ev.timestamp then
    { seen := seen, parsed := false, persisted := none, posted := [] }
  else
    let seen' := ev.timestamp :: seen
    if ev.subType ≠ "" ∨ ev.botId ≠ "" then
      { seen := seen', parsed := false, persisted := none, posted := [] }
    else if env.authOk ∧ ev.user = env.selfId then
      { seen := seen', parsed := false, persisted := none, posted := [] }
    else if env.userInfoOk = false then
      { seen := seen', parsed := false, persisted := none, posted := [] }
    else
      match env.content with
      | none => { seen := seen', parsed := true, persisted := none, posted := [] }
      | some content =>
        match parseLeaveRequest content now with
        | .error _ => { seen := seen', parsed := true, persisted := none, posted := [] }
        | .ok response =>
          if response.isValid = false then
            { seen := seen', parsed := true, persisted := none,
              posted :=
                if response.error ≠ "" then
                  [.validationError ("❌ Unable to process leave request: " ++ response.error)]
                else [] }
          else
            let leave : Leave :=
              { username := env.username, originalText := ev.text,
                startTime := response.startTime, endTime := response.endTime,
                duration := response.duration, reason := response.reason,
                leaveType := response.leaveType }
            if env.createOk then
              { seen := seen', parsed := true, persisted := some leave,
                posted := [.confirmation (leaveEmoji response.leaveType)
                  (leaveMessageType response.leaveType) leave
                  (getStatusMessage response.leaveType)] }
            else
              { seen := seen', parsed := true, persisted := none, posted := [] }

/-! ## Aggregation layer (repository, `unnamed/part_000` lines 45-141)
The SQL statements are embedded as list computations over the rows of
the `leaves` table; `db.Query` / `QueryRow` driver failure is the
`Except.error` input.  `SUM(EXTRACT(EPOCH FROM (end_time-start_time))/3600)`
is the exact rational sum of hours. -/

/-- `repository.LeaveStats` (part_000 lines 255-260). -/
structure LeaveStats where
  username : String
  leaveCount : Nat
  leaveTypes : String
  totalHours : ℚ
  deriving Repr, DecidableEq

/-- The aggregate row of `GROUP BY username` for one username over the
given rows: `COUNT(*)`, `STRING_AGG(leave_type, ', ')`, and the summed
hours. -/
def statsFor (rows : List Leave) (u : String) : LeaveStats :=
  let mine := rows.filter (fun l => l.username == u)
  { username := u
    leaveCount := mine.length
    leaveTypes := String.intercalate ", " (mine.map (fun l => l.leaveType))
    totalHours := (mine.map (fun l => ((l.endTime : ℚ) - (l.startTime : ℚ)) / 60)).sum }

/-- `WHERE start_time BETWEEN $1 AND $2` (inclusive at both endpoint
instants). -/
def rowInPeriod (s e : Nat) (l : Leave) : Bool :=
  decide (s ≤ l.startTime) && decide (l.startTime ≤ e)

/-- The rows selected by the period filter. -/
def periodRows (rows : List Leave) (s e : Nat) : List Leave :=
  rows.filter (rowInPeriod s e)

/-- `ORDER BY leave_count DESC` as a relation on aggregate rows. -/
def statsGE (a b : LeaveStats) : Prop := b.leaveCount ≤ a.leaveCount

instance : DecidableRel statsGE := fun a b => Nat.decLe b.leaveCount a.leaveCount

instance : IsTotal LeaveStats statsGE :=
  ⟨fun a b => Nat.le_total b.leaveCount a.leaveCount⟩

instance : IsTrans LeaveStats statsGE :=
  ⟨fun _ _ _ h1 h2 => Nat.le_trans h2 h1⟩

/-- `GROUP BY username ... ORDER BY leave_count DESC` over given rows:
one aggregate per distinct username, sorted by descending count. -/
def groupedStats (rows : List Leave) : List LeaveStats :=
  List.insertionSort statsGE
    ((rows.map (fun l => l.username)).eraseDups.map (statsFor rows))

/-- `LeaveRepository.GetLeaveStatsByPeriod` (part_000 lines 45-75):
driver failure propagates; otherwise the period filter, grouping and
descending order. -/
def GetLeaveStatsByPeriod (qres : Except String (List Leave)) (s e : Nat) :
    Except String (List LeaveStats) :=
  match qres with
  | .error err => .error err
  | .ok rows => .ok (groupedStats (periodRows rows s e))

/-- The no-data message of `GetTopLeaveEmployee` (part_000 line 99). -/
def topNoDataMsg : String :=
  "no leave records found for any employee." ++
    " Please ensure that leave data is available for this period."

/-- The no-data message of `GetEmployeeStats` (part_000 line 137). -/
def empNoDataMsg (username : String) : String :=
  "no leave records found for *" ++ username ++
    "*. Please check if the username is correct or if they have taken any leave."

/-- `LeaveRepository.GetTopLeaveEmployee` (part_000 lines 77-106):
`LIMIT 1` on the descending-count grouping; `sql.ErrNoRows` (no group at
all) becomes the descriptive no-data error. -/
def GetTopLeaveEmployee (qres : Except String (List Leave)) :
    Except String LeaveStats :=
  match qres with
  | .error err => .error err
  | .ok rows =>
    match groupedStats rows with
    | [] => .error topNoDataMsg
    | s :: _ => .ok s

/-- `LeaveRepository.GetEmployeeStats` (part_000 lines 108-141):
`WHERE username = $1 GROUP BY username`; zero matching rows becomes the
descriptive per-user no-data error. -/
def GetEmployeeStats (qres : Except String (List Leave)) (username : String) :
    Except String (List LeaveStats) :=
  match qres with
  | .error err => .error err
  | .ok rows =>
    let mine := rows.filter (fun l => l.username == username)
    if mine.isEmpty then .error (empNoDataMsg username)
    else .ok [statsFor mine username]

/-! ## Query classifier intent and aggregation dispatcher
(openai.go lines 309-324, leave.go lines 708-845) -/

/-- `services.QueryResponse` fields consumed by the dispatcher
(remaining optional fields of the schema do not influence dispatch). -/
structure QueryResponse where
  queryType : String
  startDate : String
  endDate : String
  username : String
  error : String
  deriving Repr, DecidableEq

/-- Slack blocks assembled by `handleQueryCommand`.  Error-path strings
(the wrapped repository messages) are kept verbatim; statistic blocks
are kept structurally (their sprintf layout is presentation only). -/
inductive Block where
  | header (text : String)
  | errText (text : String)
  | noDataEmp (username : String)
  | topStat (stat : LeaveStats)
  | periodLine (startDay endDay : Nat)
  | statLine (stat : LeaveStats)
  deriving Repr, DecidableEq

/-- Outcome of one `/query` slash-command handling. -/
inductive QueryReport where
  | parseFailed (e : String)
  | ephemeralError (text : String)
  | posted (blocks : List Block)
  | abortedDateParse
  | abortedStatsError
  deriving Repr, DecidableEq

/-- The report header block (leave.go lines 726-728). -/
def headerBlock : Block := .header "📊 Leave Statistics Report"

/-- `handleQueryCommand` (leave.go lines 708-845): on a parsed intent,
dispatch on `queryType` to exactly one repository aggregation.
`top_employee` posts the top row or the wrapped repository error;
`employee_stats` posts the wrapped repository error, the handler's own
no-data block, or (its success branch being an empty stub) just the
header; `period_stats` parses both dates with
`time.Parse("2006-01-02", _)` (returning without posting on failure)
and posts the period line and one block per aggregate row; an
unrecognized `queryType` posts just the header. -/
def handleQueryCommand (db : Except String (List Leave))
    (pq : Except String QueryResponse) : QueryReport :=
  match pq with
  | .error e => .parseFailed e
  | .ok q =>
    if q.error ≠ "" then .ephemeralError ("❌ " ++ q.error)
    else if q.queryType = "top_employee" then
      match GetTopLeaveEmployee db with
      | .error e => .posted [headerBlock, .errText ("❌ " ++ e)]
      | .ok stat => .posted [headerBlock, .topStat stat]
    else if q.queryType = "employee_stats" then
      match GetEmployeeStats db q.username with
      | .error e => .posted [headerBlock, .errText ("❌ " ++ e)]
      | .ok stats =>
        if stats.isEmpty then .posted [headerBlock, .noDataEmp q.username]
        else .posted [headerBlock]
    else if q.queryType = "period_stats" then
      match parseDate q.startDate with
      | none => .abortedDateParse
      | some sd =>
        match parseDate q.endDate with
        | none => .abortedDateParse
        | some ed =>
          match GetLeaveStatsByPeriod db (dayStart sd) (dayStart ed) with
          | .error _ => .abortedStatsError
          | .ok stats =>
            .posted ([headerBlock, .periodLine sd ed] ++ stats.map .statLine)
    else .posted [headerBlock]

/-! ## Deduplication guard under concurrent delivery
(leave.go lines 466-471: `processedMsgs` map read then write, one
handler per inbound event spawned with `go app.handleMessage`).
The guard's two map accesses are separate operations; `RaceStep` is the
interleaving semantics of `n` in-flight handlers for one event
identity. -/

/-- Progress of one in-flight handler through the guard: about to read
the map, about to write it (having read `false`), past the guard and
processing, or skipped as a duplicate. -/
inductive HPhase where
  | toCheck | toMark | processing | skipped
  deriving Repr, DecidableEq

/-- Shared state: whether the identity is in `processedMsgs`, and each
handler's progress. -/
structure RaceState (n : Nat) where
  seen : Bool
  phase : Fin n → HPhase

/-- One interleaving step: a handler reads the map and skips (identity
present), reads the map and proceeds to the write (identity absent), or
performs the write and enters processing.  The read and the write of
the source are two separate steps - nothing joins them atomically. -/
inductive RaceStep {n : Nat} : RaceState n → RaceState n → Prop where
  | checkDup (s : RaceState n) (i : Fin n)
      (hp : s.phase i = .toCheck) (hs : s.seen = true) :
      RaceStep s ⟨true, Function.update s.phase i .skipped⟩
  | checkNew (s : RaceState n) (i : Fin n)
      (hp : s.phase i = .toCheck) (hs : s.seen = false) :
      RaceStep s ⟨false, Function.update s.phase i .toMark⟩
  | mark (s : RaceState n) (i : Fin n) (hp : s.phase i = .toMark) :
      RaceStep s ⟨true, Function.update s.phase i .processing⟩

/-- Initial state: identity not yet observed, both handlers at the
guard. -/
def raceInit : RaceState 2 := ⟨false, fun _ => .toCheck⟩

/-! ## Concrete fixtures for witnesses (day 19783 = 2024-03-01) -/

/-- A fixed current instant for witnesses: 2024-03-01 10:00 IST
(day index 19783). -/
def now0 : Nat := 19783 * 1440 + 600

/-- Candidate starting the day before `now0` (2024-02-29, 09:00-18:00). -/
def rPast : LeaveResponse :=
  ⟨true, 19782 * 1440 + 540, 19782 * 1440 + 1080, "9 hours", "sick", "FULL_DAY", ""⟩

/-- Candidate starting exactly 30 days after `now0`'s day. -/
def r30 : LeaveResponse :=
  ⟨true, 19813 * 1440 + 540, 19813 * 1440 + 1080, "9 hours", "trip", "FULL_DAY", ""⟩

/-- Candidate starting exactly 31 days after `now0`'s day. -/
def r31 : LeaveResponse :=
  ⟨true, 19814 * 1440 + 540, 19814 * 1440 + 1080, "9 hours", "trip", "FULL_DAY", ""⟩

/-- Candidate on `now0`'s day with `endTime = startTime`. -/
def rZeroLen : LeaveResponse :=
  ⟨true, 19783 * 1440 + 540, 19783 * 1440 + 540, "0 hours", "errand", "FULL_DAY", ""⟩

/-- Candidate on `now0`'s day with `endTime` strictly before `startTime`. -/
def rBackwards : LeaveResponse :=
  ⟨true, 19783 * 1440 + 1080, 19783 * 1440 + 540, "9 hours", "errand", "FULL_DAY", ""⟩

/-! ## Claims C2-C4, C7: the leave validator and defensive parsing -/

/-- Claim C2: every candidate with `isValid = true` (and a leave type,
whatever it is) whose start civil date is strictly before today's civil
date is rejected by the validator with the past-date reason. -/
theorem C2_past_date_rejected (r : LeaveResponse) (now : Nat)
    (hv : r.isValid = true) (ht : r.leaveType ≠ "")
    (hpast : civilDay r.startTime < civilDay now) :
    validateLeave r now = .ok { r with isValid := false, error := pastMsg } := by
  simp [validateLeave, hv, ht, hpast]

/-- Witness for C2 at a concrete candidate (start 2024-02-29, today
2024-03-01). -/
theorem C2_witness :
    validateLeave rPast now0 = .ok { rPast with isValid := false, error := pastMsg } :=
  C2_past_date_rejected rPast now0 rfl (by decide) (by decide)

/-- Claim C3: the 30-day advance limit is boundary inclusive.  A valid
candidate starting exactly `today + 30` days (with a well-ordered end
time) is accepted unchanged; one starting `today + 31` days or later is
rejected, and its rejection message carries the computed maximum
allowed date in the human-readable `"January 2, 2006"` form. -/
theorem C3_advance_window (r : LeaveResponse) (now : Nat)
    (hv : r.isValid = true) (ht : r.leaveType ≠ "") :
    (civilDay r.startTime = civilDay now + 30 → ¬ r.endTime < r.startTime →
       validateLeave r now = .ok r)
    ∧ (civilDay now + 31 ≤ civilDay r.startTime →
       validateLeave r now =
         .ok { r with isValid := false, error := tooFarMsg (civilDay now + 30) }
       ∧ ∃ p s, tooFarMsg (civilDay now + 30) =
           p ++ formatGoDate (civilDay now + 30) ++ s) := by
  constructor
  · intro heq hend
    have h1 : ¬ civilDay r.startTime < civilDay now := by omega
    have h2 : ¬ civilDay now + 30 < civilDay r.startTime := by omega
    simp [validateLeave, hv, ht, h1, h2, hend]
  · intro hge
    have h1 : ¬ civilDay r.startTime < civilDay now := by omega
    have h2 : civilDay now + 30 < civilDay r.startTime := by omega
    refine ⟨by simp [validateLeave, hv, ht, h1, h2], ?_⟩
    exact ⟨"Cannot request leave more than 30 days in advance (maximum allowed date is ",
           ")", rfl⟩

/-- Witness for C3: with today = 2024-03-01, the candidate starting
2024-03-31 (`today + 30`) is accepted and the one starting 2024-04-01
(`today + 31`) is rejected with the max-date message. -/
theorem C3_witness :
    validateLeave r30 now0 = .ok r30 ∧
    validateLeave r31 now0 =
      .ok { r31 with isValid := false, error := tooFarMsg (civilDay now0 + 30) } :=
  ⟨(C3_advance_window r30 now0 rfl (by decide)).1 (by decide) (by decide),
   ((C3_advance_window r31 now0 rfl (by decide)).2 (by decide)).1⟩

/-- Counterexample to claim C4 as stated: a candidate with
`endTime = startTime` (so `endTime ≤ startTime`), both on today's civil
date, is accepted unchanged - the source checks
`endTimeIST.Before(startTimeIST)`, which is strict, so equality is not
rejected. -/
theorem C4_counterexample :
    rZeroLen.endTime ≤ rZeroLen.startTime ∧
    validateLeave rZeroLen now0 = .ok rZeroLen ∧
    rZeroLen.isValid = true :=
  ⟨by decide, rfl, rfl⟩

/-- Claim C4 (amended): every candidate with `endTime` strictly before
`startTime` is rejected with the end-before-start reason even when both
dates are inside the allowed window; `endTime = startTime` is
accepted. -/
theorem C4_end_before_start (r : LeaveResponse) (now : Nat)
    (hv : r.isValid = true) (ht : r.leaveType ≠ "")
    (h1 : ¬ civilDay r.startTime < civilDay now)
    (h2 : ¬ civilDay now + 30 < civilDay r.startTime)
    (he : r.endTime < r.startTime) :
    validateLeave r now = .ok { r with isValid := false, error := endBeforeStartMsg } := by
  simp [validateLeave, hv, ht, h1, h2, he]

/-- Witness for C4 (amended) at a concrete candidate whose end time
precedes its start time on today's date. -/
theorem C4_witness :
    validateLeave rBackwards now0 =
      .ok { rBackwards with isValid := false, error := endBeforeStartMsg } :=
  C4_end_before_start rBackwards now0 rfl (by decide) (by decide) (by decide) (by decide)

/-- Reply content declaring `is_valid = true` with `leave_type` present
but `duration` and `reason` absent, and well-formed future times
(2024-03-02, 09:00-18:00 IST). -/
def contentMissingFields : RawContent :=
  .obj (some true) (some (19784 * 1440 + 540)) (some (19784 * 1440 + 1080))
    none none (some "WFH") none

/-- The candidate `json.Unmarshal` produces for `contentMissingFields`:
the absent string fields are silently defaulted to `""`. -/
def respDefaulted : LeaveResponse :=
  ⟨true, 19784 * 1440 + 540, 19784 * 1440 + 1080, "", "", "WFH", ""⟩

/-- Whether a parse outcome is a propagated hard failure. -/
def isHardFailure : Except String LeaveResponse → Bool
  | .error _ => true
  | .ok _ => false

/-- Counterexample to claim C7 as stated: a reply with `isValid = true`
that is missing the required string fields `duration` and `reason` is
not treated as a hard parse failure - `ParseLeaveRequest` returns a
candidate with those fields silently defaulted to `""`. -/
theorem C7_counterexample :
    parseLeaveRequest contentMissingFields now0 = .ok respDefaulted ∧
    isHardFailure (parseLeaveRequest contentMissingFields now0) = false :=
  ⟨rfl, rfl⟩

/-- Claim C7 (amended): malformed JSON is a propagated hard parse
failure, and a reply declaring `isValid = true` with `leave_type`
absent (or decoded empty) is a propagated hard parse failure; other
absent string fields are defaulted, not errors. -/
theorem C7_parse_failures (st et : Option Nat) (du re er : Option String) (now : Nat) :
    parseLeaveRequest .malformed now = .error jsonErrMsg ∧
    parseLeaveRequest (.obj (some true) st et du re none er) now = .error ltReqMsg ∧
    parseLeaveRequest (.obj (some true) st et du re (some "") er) now = .error ltReqMsg := by
  refine ⟨rfl, ?_, ?_⟩ <;> simp [parseLeaveRequest, unmarshalLeave, validateLeave]

/-! ## Claims C6, C10: invalid-result pass-through and the
at-most-once mark -/

/-- Claim C6: when the interpretation reply declares `isValid = false`,
`ParseLeaveRequest` returns that candidate as-is (carried error message
included, none of the date/ordering rules applied), and `handleMessage`
persists nothing for it whatever the rest of the environment does. -/
theorem C6_invalid_passthrough (content : RawContent) (r : LeaveResponse) (now : Nat)
    (hu : unmarshalLeave content = .ok r) (hv : r.isValid = false) :
    parseLeaveRequest content now = .ok r ∧
    ∀ (seen : List String) (ev : MsgEvent) (env : HandlerEnv),
      env.content = some content →
      (handleMessage seen ev env now).persisted = none := by
  have hparse : parseLeaveRequest content now = .ok r := by
    simp [parseLeaveRequest, hu, validateLeave, hv]
  refine ⟨hparse, ?_⟩
  intro seen ev env hc
  unfold handleMessage
  rw [hc]
  simp only [hparse, hv]
  (repeat' split) <;> simp_all

/-- Inbound message event used by handler witnesses. -/
def evW : MsgEvent := ⟨"1709277000.000100", "wfh tomorrow", "U123", "C1", "", ""⟩

/-- Reply content declaring `is_valid = false` with a carried error. -/
def contentInvalid : RawContent :=
  .obj (some false) none none none none none
    (some "Cannot request leave for past dates")

/-- The candidate decoded from `contentInvalid`. -/
def respInvalid : LeaveResponse :=
  ⟨false, 0, 0, "", "", "", "Cannot request leave for past dates"⟩

/-- Environment whose interpretation reply is `contentInvalid` and whose
persistence write would succeed if attempted. -/
def envInvalid : HandlerEnv := ⟨true, "UBOT", true, "alice", some contentInvalid, true⟩

/-- Witness for C6 at the concrete invalid reply: returned as-is and
not persisted. -/
theorem C6_witness :
    parseLeaveRequest contentInvalid now0 = .ok respInvalid ∧
    (handleMessage [] evW envInvalid now0).persisted = none :=
  ⟨(C6_invalid_passthrough contentInvalid respInvalid now0 rfl rfl).1,
   (C6_invalid_passthrough contentInvalid respInvalid now0 rfl rfl).2 [] evW envInvalid rfl⟩

/-- Claim C10: within the sequential-invocation semantics of
`handleMessage`, the event identity is marked seen before
interpretation, validation or persistence begin and is never removed -
whatever the environment outcome (API failure, invalid result, failed
write), a first invocation leaves the identity marked, the seen set only
grows, and an invocation on an already-marked identity does nothing:
no interpretation, no persistence, no posting (at-most-once). -/
theorem C10_mark_first_no_retry (seen : List String) (ev : MsgEvent)
    (env : HandlerEnv) (now : Nat) :
    (seen.contains ev.timestamp = false →
      (handleMessage seen ev env now).seen = ev.timestamp :: seen)
    ∧ (∀ t, t ∈ seen → t ∈ (handleMessage seen ev env now).seen)
    ∧ (seen.contains ev.timestamp = true →
      handleMessage seen ev env now =
        { seen := seen, parsed := false, persisted := none, posted := [] }) := by
  have key : seen.contains ev.timestamp = false →
      (handleMessage seen ev env now).seen = ev.timestamp :: seen := by
    intro h
    unfold handleMessage
    rw [h]
    simp only [Bool.false_eq_true, if_false]
    (repeat' split) <;> rfl
  have dup : seen.contains ev.timestamp = true →
      handleMessage seen ev env now =
        { seen := seen, parsed := false, persisted := none, posted := [] } := by
    intro h
    unfold handleMessage
    rw [h]
    rfl
  refine ⟨key, ?_, dup⟩
  intro t ht
  cases hc : seen.contains ev.timestamp with
  | false => rw [key hc]; exact List.mem_cons_of_mem _ ht
  | true => rw [dup hc]; exact ht

/-- Environment in which the interpretation call fails (API error) and
the persistence write would fail too. -/
def envFail : HandlerEnv := ⟨true, "UBOT", true, "alice", none, false⟩

/-- Witness for C10: a first delivery under a failing environment still
marks the identity, and a redelivery of the marked identity is skipped
outright. -/
theorem C10_witness :
    (handleMessage [] evW envFail now0).seen = [evW.timestamp] ∧
    handleMessage [evW.timestamp] evW envFail now0 =
      { seen := [evW.timestamp], parsed := false, persisted := none, posted := [] } :=
  ⟨(C10_mark_first_no_retry [] evW envFail now0).1 rfl,
   (C10_mark_first_no_retry [evW.timestamp] evW envFail now0).2.2 (by decide)⟩

/-! ## Claim C1: the guard is not at-most-once under concurrency -/

/-- Claim C1 (violation exhibited): from the initial state with two
concurrent `handleMessage` invocations on the same event identity,
there is a reachable interleaving in which BOTH handlers pass the
first-observation check and process the event - the unsynchronized
read-then-write guard is not at-most-once, contradicting the claimed
"exactly one true".  The trace: both handlers read
`processedMsgs[ts] = false` before either performs the write. -/
theorem C1_dedup_race :
    ∃ s : RaceState 2, Relation.ReflTransGen RaceStep raceInit s ∧
      s.phase 0 = .processing ∧ s.phase 1 = .processing := by
  let s1 : RaceState 2 := ⟨false, Function.update raceInit.phase 0 .toMark⟩
  let s2 : RaceState 2 := ⟨false, Function.update s1.phase 1 .toMark⟩
  let s3 : RaceState 2 := ⟨true, Function.update s2.phase 0 .processing⟩
  let s4 : RaceState 2 := ⟨true, Function.update s3.phase 1 .processing⟩
  refine ⟨s4, ?_, ?_, ?_⟩
  · have t1 : RaceStep raceInit s1 := RaceStep.checkNew raceInit 0 rfl rfl
    have t2 : RaceStep s1 s2 := RaceStep.checkNew s1 1 (by decide) rfl
    have t3 : RaceStep s2 s3 := RaceStep.mark s2 0 (by decide)
    have t4 : RaceStep s3 s4 := RaceStep.mark s3 1 (by decide)
    exact Relation.ReflTransGen.head t1 (Relation.ReflTransGen.head t2
      (Relation.ReflTransGen.head t3 (Relation.ReflTransGen.single t4)))
  · decide
  · decide

/-! ## Claims C5, C8, C9: aggregation dispatch and no-data policy -/

/-- Claim C5 (amended): a classified period-stats intent with parseable
start and end dates dispatches exactly the period aggregation, whose
row filter is `startDate ≤ startTime ≤ endDate` inclusive of both
endpoint instants - the parsed dates being midnight instants, so a
record starting exactly at the end-date midnight instant is included
while one starting later on that civil day is excluded - whose output
groups rows by username with the per-user row count, ordered by
descending leave count. -/
theorem C5_period_stats_dispatch (rows : List Leave) (q : QueryResponse)
    (sd ed : Nat)
    (herr : q.error = "") (hqt : q.queryType = "period_stats")
    (hs : parseDate q.startDate = some sd) (he : parseDate q.endDate = some ed) :
    handleQueryCommand (.ok rows) (.ok q) =
      .posted ([headerBlock, .periodLine sd ed] ++
        (groupedStats (periodRows rows (dayStart sd) (dayStart ed))).map .statLine)
    ∧ (∀ l, l ∈ periodRows rows (dayStart sd) (dayStart ed) ↔
        l ∈ rows ∧ dayStart sd ≤ l.startTime ∧ l.startTime ≤ dayStart ed)
    ∧ (∀ st ∈ groupedStats (periodRows rows (dayStart sd) (dayStart ed)),
        st = statsFor (periodRows rows (dayStart sd) (dayStart ed)) st.username ∧
        st.leaveCount = ((periodRows rows (dayStart sd) (dayStart ed)).filter
          (fun l => l.username == st.username)).length)
    ∧ ((groupedStats (periodRows rows (dayStart sd) (dayStart ed))).map
          (fun st => st.username)).Perm
        ((periodRows rows (dayStart sd) (dayStart ed)).map
          (fun l => l.username)).eraseDups
    ∧ List.Sorted statsGE (groupedStats (periodRows rows (dayStart sd) (dayStart ed)))
    ∧ (∀ l ∈ rows, dayStart ed < l.startTime →
        l ∉ periodRows rows (dayStart sd) (dayStart ed)) := by
  refine ⟨?_, ?_, ?_, ?_, ?_, ?_⟩
  · simp [handleQueryCommand, herr, hqt, hs, he, GetLeaveStatsByPeriod]
  · intro l
    simp [periodRows, rowInPeriod, List.mem_filter, Bool.and_eq_true, decide_eq_true_eq]
  · intro st hst
    rw [groupedStats, List.mem_insertionSort] at hst
    obtain ⟨u, hu, rfl⟩ := List.mem_map.1 hst
    exact ⟨rfl, rfl⟩
  · rw [groupedStats]
    refine ((List.perm_insertionSort statsGE _).map (fun st => st.username)).trans ?_
    rw [List.map_map]
    have hid : ((fun st : LeaveStats => st.username) ∘
        statsFor (periodRows rows (dayStart sd) (dayStart ed))) = id := by
      funext u; rfl
    rw [hid, List.map_id]
  · rw [groupedStats]
    exact List.sorted_insertionSort statsGE _
  · intro l _ hgt hmem
    rw [periodRows, List.mem_filter] at hmem
    have hin := hmem.2
    simp only [rowInPeriod, Bool.and_eq_true, decide_eq_true_eq] at hin
    omega

/-- Period-stats intent fixture: March 2024. -/
def qPeriod : QueryResponse := ⟨"period_stats", "2024-03-01", "2024-03-31", "", ""⟩

/-- A leave row starting 2024-03-05 09:00 IST. -/
def leaveA : Leave :=
  ⟨"alice", "full day leave on march 5", 19787 * 1440 + 540, 19787 * 1440 + 1080,
   "9 hours", "trip", "FULL_DAY"⟩

/-- A leave row starting exactly at the end instant of the queried
period (2024-03-31 00:00 IST). -/
def leaveB : Leave :=
  ⟨"bob", "leave march 31", 19813 * 1440, 19813 * 1440 + 240, "4 hours", "errand",
   "HALF_DAY"⟩

/-- Rows fixture for the query witnesses. -/
def rowsW : List Leave := [leaveA, leaveB]

/-- Witness for C5 at a concrete March 2024 intent: the dispatched
report, and the boundary row starting at the end instant is included. -/
theorem C5_witness :
    handleQueryCommand (.ok rowsW) (.ok qPeriod) =
      .posted ([headerBlock, .periodLine 19783 19813] ++
        (groupedStats (periodRows rowsW (dayStart 19783) (dayStart 19813))).map .statLine)
    ∧ leaveB ∈ periodRows rowsW (dayStart 19783) (dayStart 19813) :=
  ⟨(C5_period_stats_dispatch rowsW qPeriod 19783 19813 rfl rfl (by decide) (by decide)).1,
   ((C5_period_stats_dispatch rowsW qPeriod 19783 19813 rfl rfl (by decide)
      (by decide)).2.1 leaveB).2 (by decide)⟩

/-- A leave row starting on the civil end date of the queried period
but later in the day (2024-03-31 09:00 IST, the start instant the
system's own full-day leaves carry). -/
def leaveC : Leave :=
  ⟨"dave", "full day leave march 31", 19813 * 1440 + 540, 19813 * 1440 + 1080,
   "9 hours", "errand", "FULL_DAY"⟩

/-- Counterexample to claim C5 as stated: `leaveC` starts on the civil
end date (2024-03-31) of the classified March 2024 period-stats intent,
yet the dispatched aggregation excludes it - the parsed end date is the
midnight instant 2024-03-31 00:00 and the `BETWEEN` filter stops there,
so the report over a dataset holding only `leaveC` carries no
statistics block at all. -/
theorem C5_counterexample :
    parseDate qPeriod.endDate = some 19813 ∧
    civilDay leaveC.startTime = 19813 ∧
    leaveC ∉ periodRows [leaveC] (dayStart 19783) (dayStart 19813) ∧
    handleQueryCommand (.ok [leaveC]) (.ok qPeriod) =
      .posted [headerBlock, .periodLine 19783 19813] :=
  ⟨by decide, by decide, by decide, by decide⟩

/-- Claim C8: a top-employee query against a dataset with zero leave
rows yields the descriptive no-data error of the repository, which the
dispatcher reports (wrapped with the error marker); it is never posted
as a bare header or as a success statistic block. -/
theorem C8_top_employee_no_rows (q : QueryResponse)
    (hqt : q.queryType = "top_employee") (herr : q.error = "") :
    GetTopLeaveEmployee (.ok []) = .error topNoDataMsg
    ∧ handleQueryCommand (.ok []) (.ok q) =
        .posted [headerBlock, .errText ("❌ " ++ topNoDataMsg)]
    ∧ (∃ p s, topNoDataMsg = p ++ "no leave records found" ++ s)
    ∧ handleQueryCommand (.ok []) (.ok q) ≠ .posted [headerBlock]
    ∧ (∀ stat, handleQueryCommand (.ok []) (.ok q) ≠
        .posted [headerBlock, .topStat stat]) := by
  have hrepo : GetTopLeaveEmployee (.ok ([] : List Leave)) = .error topNoDataMsg := rfl
  have hdisp : handleQueryCommand (.ok []) (.ok q) =
      .posted [headerBlock, .errText ("❌ " ++ topNoDataMsg)] := by
    simp [handleQueryCommand, herr, hqt, hrepo]
  refine ⟨hrepo, hdisp, ⟨"", " for any employee. Please ensure that leave data is" ++
    " available for this period.", by decide⟩, ?_, ?_⟩
  · rw [hdisp]; simp
  · intro stat
    rw [hdisp]
    simp

/-- Top-employee intent fixture. -/
def qTop : QueryResponse := ⟨"top_employee", "", "", "", ""⟩

/-- Witness for C8 at the concrete empty dataset and intent. -/
theorem C8_witness :
    GetTopLeaveEmployee (.ok []) = .error topNoDataMsg ∧
    handleQueryCommand (.ok []) (.ok qTop) =
      .posted [headerBlock, .errText ("❌ " ++ topNoDataMsg)] :=
  ⟨(C8_top_employee_no_rows qTop rfl rfl).1, (C8_top_employee_no_rows qTop rfl rfl).2.1⟩

/-- Claim C9: an employee-stats query for a username with zero matching
rows yields the repository's no-data error naming that username, the
dispatcher reports it, the message differs from the top-employee
no-data message for every username, and a query-execution error is a
distinct outcome (propagated unchanged rather than mapped to the
no-data message). -/
theorem C9_employee_stats_no_rows (rows : List Leave) (q : QueryResponse)
    (hqt : q.queryType = "employee_stats") (herr : q.error = "")
    (hnone : rows.filter (fun l => l.username == q.username) = []) :
    GetEmployeeStats (.ok rows) q.username = .error (empNoDataMsg q.username)
    ∧ handleQueryCommand (.ok rows) (.ok q) =
        .posted [headerBlock, .errText ("❌ " ++ empNoDataMsg q.username)]
    ∧ (∃ p s, empNoDataMsg q.username = p ++ q.username ++ s)
    ∧ empNoDataMsg q.username ≠ topNoDataMsg
    ∧ (∀ e, GetEmployeeStats (.error e) q.username = .error e) := by
  have hrepo : GetEmployeeStats (.ok rows) q.username = .error (empNoDataMsg q.username) := by
    simp [GetEmployeeStats, hnone]
  refine ⟨hrepo, ?_, ?_, ?_, fun e => rfl⟩
  · simp [handleQueryCommand, herr, hqt, hrepo]
  · exact ⟨"no leave records found for *",
      "*. Please check if the username is correct or if they have taken any leave.", rfl⟩
  · intro h
    have hlen := congrArg String.length h
    simp only [empNoDataMsg, topNoDataMsg, String.length_append] at hlen
    have e1 : ("no leave records found for *" : String).length = 28 := rfl
    have e2 : ("*. Please check if the username is correct or if they have taken any leave." : String).length = 75 := rfl
    have e3 : ("no leave records found for any employee." : String).length = 40 := rfl
    have e4 : (" Please ensure that leave data is available for this period." : String).length
        = 60 := rfl
    omega

/-- Employee-stats intent fixture for a user with no rows. -/
def qEmp : QueryResponse := ⟨"employee_stats", "", "", "carol", ""⟩

/-- Witness for C9: the dataset holds rows for other users only, and the
query for carol reports the no-data error naming carol, distinct from
the top-employee message. -/
theorem C9_witness :
    GetEmployeeStats (.ok rowsW) qEmp.username = .error (empNoDataMsg qEmp.username) ∧
    handleQueryCommand (.ok rowsW) (.ok qEmp) =
      .posted [headerBlock, .errText ("❌ " ++ empNoDataMsg qEmp.username)] ∧
    empNoDataMsg qEmp.username ≠ topNoDataMsg :=
  ⟨(C9_employee_stats_no_rows rowsW qEmp rfl rfl (by decide)).1,
   (C9_employee_stats_no_rows rowsW qEmp rfl rfl (by decide)).2.1,
   (C9_employee_stats_no_rows rowsW qEmp rfl rfl (by decide)).2.2.2.1⟩
